import Mathlib

/-!
Verification of the chunked-upload session manager of BlueprintAiParser
(static/js chunked-upload script, "corrected closure scope" variant, plus
the shared helpers of scripts.js).

The embedding models:
* the page-global mutable state (`pollIntervalId`, `currentUploadId`) and the
  user-visible DOM surfaces written by the script, as the structure `St`;
* the inline helpers `displayErrorInline` / `displayResultsInline`;
* the polling callback body of `pollTaskStatus` (one `setInterval` tick) and a
  driver that fires ticks while the interval is installed;
* the chunk upload loop `uploadNextChunk` and the promise-chain continuations
  of `startChunkedUpload`, each with its "is this attempt still the active
  upload" guard;
* the form submit handler with its input validation;
* a timed model of `setInterval(fn, 3000)` plus fetch latencies, used for the
  temporal claims about poll serialization.

DOM elements are modelled by the fields of `St` that the script writes
(visibility flags, text content, the disabled flag of the parse button).
Purely cosmetic writes (placeholder paragraphs, CSS classes of highlight.js)
are not represented.  `clears` counts the effective teardowns of the poll
interval: it is incremented exactly when `clearInterval` is invoked while an
interval is installed.
-/

/-- JavaScript truthiness of a possibly-absent string (`null`/`undefined` and
the empty string are falsy). -/
def truthy : Option String → Bool
  | none => false
  | some s => s ≠ ""

/-- The `result` payload of a status response (`TaskResult`): all four fields
are optional, exactly as consumed by `displayResultsInline`. -/
structure TaskResult where
  output : Option String := none
  ai_output : Option String := none
  stats_summary : Option String := none
  error : Option String := none
  deriving DecidableEq, Repr

/-- Page state: the two script-global mutable variables plus the user-visible
DOM surfaces the script writes.  `pollTimer` is `pollIntervalId` (`none` =
`null`), `currentUploadId` tracks the active upload attempt.  `clears` counts
effective `clearInterval` calls (teardowns of an installed interval). -/
structure St where
  pollTimer : Option Nat := none
  currentUploadId : Option String := none
  errorText : String := ""
  errorIsWarning : Bool := false
  errorVisible : Bool := false
  processingVisible : Bool := false
  processingMsg : String := ""
  resultsVisible : Bool := false
  statsContent : Option String := none
  statsVisible : Bool := false
  humanContent : Option String := none
  copyTextVisible : Bool := false
  aiContent : Option String := none
  aiVisible : Bool := false
  copyJsonVisible : Bool := false
  parseDisabled : Bool := false
  clears : Nat := 0
  deriving DecidableEq, Repr

/-- `if (pollIntervalId) { clearInterval(pollIntervalId); }` followed by the
(possibly implicit) reset of the variable: afterwards no interval is
installed, and an effective teardown is counted if one was. -/
def clearTimer (st : St) : St :=
  if st.pollTimer.isSome then
    { st with pollTimer := none, clears := st.clears + 1 }
  else
    { st with pollTimer := none }

/-- `displayErrorInline(message, isWarning)` (corrected variant): fills and
shows the error alert, hides the processing indicator and the results area,
re-enables the parse button when no poll interval is installed, clears any
installed poll interval, and finally resets `currentUploadId` to `null`. -/
def displayErrorInline (message : String) (isWarning : Bool) (st : St) : St :=
  let st := { st with
    errorText := message, errorIsWarning := isWarning, errorVisible := true,
    processingVisible := false, resultsVisible := false }
  let st := if st.pollTimer.isSome then st else { st with parseDisabled := false }
  let st := if st.pollTimer.isSome then
      { st with pollTimer := none, clears := st.clears + 1 }
    else st
  { st with currentUploadId := none }

/-- `displayResultsInline(taskResult)` (corrected variant): shows the results
area, then—when the payload carries an `error`—reports it as a warning via
`displayErrorInline`, then fills the stats / human-readable / AI panes and
re-enables the parse button, finally resetting `currentUploadId`. -/
def displayResultsInline (r : TaskResult) (st : St) : St :=
  let st := { st with errorVisible := false, processingVisible := false,
                      resultsVisible := true }
  let st := if truthy r.error then
      displayErrorInline ("Processing completed with issues: " ++ r.error.getD "") true st
    else st
  let st := if truthy r.stats_summary then
      { st with statsContent := r.stats_summary, statsVisible := true }
    else { st with statsVisible := false }
  let st := if truthy r.output then
      { st with humanContent := r.output, copyTextVisible := true }
    else { st with humanContent := none, copyTextVisible := false }
  let st := if truthy r.ai_output then
      { st with aiContent := r.ai_output, aiVisible := true, copyJsonVisible := true }
    else { st with aiVisible := false, copyJsonVisible := false }
  let st := { st with parseDisabled := false }
  { st with currentUploadId := none }

/-- Outcome of one `fetch('/status/{taskId}')`: an HTTP-ok JSON body
(status string, optional result payload, optional error message), a non-ok
HTTP response, or a network-level failure. -/
inductive StatusResp where
  | ok (status : String) (result : Option TaskResult) (error : Option String)
  | httpErr (code : Nat) (body : String)
  | netErr (msg : String)
  deriving DecidableEq, Repr

/-- User-visible deliveries of the poller: an issued status request, a
results display (`displayResultsInline`), or an error display
(`displayErrorInline`). -/
inductive Out where
  | statusReq (tick : Nat)
  | resolvedResults (r : TaskResult)
  | resolvedError (msg : String)
  deriving DecidableEq, Repr

/-- The `.catch` of the polling fetch chain: clears the interval, re-enables
the parse button and reports a descriptive error. -/
def pollCatch (emsg : String) (st : St) : St × List Out :=
  let st := clearTimer st
  let st := { st with parseDisabled := false }
  let msg := "Error checking task status: " ++ emsg ++
    ". The server might be down or the task ID is invalid. Please try again or refresh the page."
  (displayErrorInline msg false st, [Out.resolvedError msg])

/-- One tick of the `setInterval` callback of `pollTaskStatus`, applied to the
outcome of its status fetch: terminal statuses clear the interval and resolve
via `displayResultsInline` / `displayErrorInline`; non-terminal statuses keep
polling; unknown statuses and transport errors clear the interval and report
an error. -/
def pollTick (r : StatusResp) (st : St) : St × List Out :=
  match r with
  | .ok status result error =>
    if status = "SUCCESS" ∨ status = "FAILURE" ∨ status = "PARTIAL_FAILURE" ∨
        status = "UNEXPECTED_RESULT" then
      let st := clearTimer st
      let st := { st with processingVisible := false }
      if status = "SUCCESS" ∨ status = "PARTIAL_FAILURE" then
        let res := result.getD {}
        (displayResultsInline res st, [Out.resolvedResults res])
      else
        let msg := if truthy error then error.getD ""
          else "Task failed with status: " ++ status
        (displayErrorInline msg false st, [Out.resolvedError msg])
    else if status = "PROCESSING" ∨ status = "PENDING" ∨ status = "STARTED" then
      ({ st with processingVisible := true }, [])
    else
      let st := clearTimer st
      let st := { st with parseDisabled := false }
      let msg := "Task ended with unexpected status: " ++ status
      (displayErrorInline msg false st, [Out.resolvedError msg])
  | .httpErr code body =>
    pollCatch ("HTTP error! Status: " ++ toString code ++ ", Message: " ++
      (if body = "" then "No message" else body)) st
  | .netErr m => pollCatch m st

/-- Entry of `pollTaskStatus(taskId)`: clears any previously installed
interval, then installs a fresh one. -/
def pollTaskStatusStart (newTimerId : Nat) (st : St) : St :=
  let st := clearTimer st
  { st with pollTimer := some newTimerId }

/-- Whether a status response keeps the poller running (an HTTP-ok body with
a non-terminal status); every other response tears the interval down. -/
def keepsPolling : StatusResp → Bool
  | .ok status _ _ =>
      !(status == "SUCCESS" || status == "FAILURE" || status == "PARTIAL_FAILURE" ||
        status == "UNEXPECTED_RESULT") &&
      (status == "PROCESSING" || status == "PENDING" || status == "STARTED")
  | .httpErr _ _ => false
  | .netErr _ => false

/-- Driver for the recurring interval: while an interval is installed, tick
`k` issues a status request whose response is `oracle k` and processes it with
`pollTick`; once the interval is gone, no further tick fires.  `fuel` bounds
the number of ticks considered. -/
def pollRun (oracle : Nat → StatusResp) : Nat → Nat → St → St × List Out
  | 0, _, st => (st, [])
  | fuel + 1, tick, st =>
    if st.pollTimer.isSome then
      let p := pollTick (oracle tick) st
      let q := pollRun oracle fuel (tick + 1) p.1
      (q.1, Out.statusReq tick :: p.2 ++ q.2)
    else (st, [])

/-- `const chunkSize = 5 * 1024 * 1024` (5 MiB). -/
def chunkSize : Nat := 5 * 1024 * 1024

/-- `const totalChunks = Math.ceil(totalSize / chunkSize)`. -/
def totalChunksOf (totalSize : Nat) : Nat := (totalSize + chunkSize - 1) / chunkSize

/-- `const start = currentChunkIndex * chunkSize`. -/
def chunkStart (i : Nat) : Nat := i * chunkSize

/-- `const end = Math.min(start + chunkSize, totalSize)`. -/
def chunkEnd (totalSize i : Nat) : Nat := min (chunkStart i + chunkSize) totalSize

/-- Parsed JSON body of an HTTP-ok `/upload-chunk` response. -/
structure ChunkBody where
  status : String
  message : Option String := none
  deriving DecidableEq, Repr

/-- Outcome of one `fetch('/upload-chunk')`: an HTTP-ok parsed body, a non-ok
HTTP response (with the `message` of its body when that body was parsable
JSON), or a network-level failure. -/
inductive ChunkNet where
  | ok (body : ChunkBody)
  | httpErr (code : Nat) (message : Option String)
  | netErr (msg : String)
  deriving DecidableEq, Repr

/-- The error message the chunk promise chain throws for a failing response
(`none` when the response is an acknowledged success). -/
def chunkFailMsg : ChunkNet → Option String
  | .ok body =>
      if body.status = "success" then none
      else some (if truthy body.message then body.message.getD ""
        else "Chunk upload reported failure.")
  | .httpErr code message =>
      some (if truthy message then message.getD ""
        else "Chunk upload failed: " ++ toString code)
  | .netErr msg => some msg

/-- Network-visible and outcome-visible events of one upload attempt. -/
inductive Ev where
  | initReq (total_size : Nat) (filename : String)
  | chunkReq (upload_id : String) (chunk_index : Nat)
  | chunkAck (chunk_index : Nat)
  | pollStarted (task_id : String)
  | uploadFailed (chunk_index : Nat) (cause : String)
  | initFailed (cause : String)
  deriving DecidableEq, Repr

/-- The `uploadNextChunk` recursion (corrected variant), run against a chunk
transport oracle `t` under a fixed value `cur` of `currentUploadId` (i.e.
assuming no supersession happens while the loop runs; the per-response
re-checks of the guard compare the same two values).  Produces the sequence
of events: each iteration first checks the supersession guard and stops
silently if the attempt is no longer active; then either hands off to the
poller once all chunks are sent, or sends the next chunk (carrying the
server-confirmed upload id) and—on acknowledgment—advances, or—on any
failure—reports the failing chunk and its cause and stops.  `fuel` bounds the
recursion and is at least `totalChunks - i + 1` at every call site. -/
def uploadNextChunk (t : Nat → ChunkNet) (cur : Option String)
    (confirmedId taskId : String) (totalChunks : Nat) : Nat → Nat → List Ev
  | _, 0 => []
  | i, fuel + 1 =>
    if cur ≠ some confirmedId then []
    else if totalChunks ≤ i then [Ev.pollStarted taskId]
    else
      Ev.chunkReq confirmedId i ::
      match chunkFailMsg (t i) with
      | none => Ev.chunkAck i ::
          uploadNextChunk t cur confirmedId taskId totalChunks (i + 1) fuel
      | some cause => [Ev.uploadFailed i cause]

/-- Parsed JSON body of an HTTP-ok `/initiate-upload` response. -/
structure InitData where
  status : String
  task_id : Option String := none
  upload_id : Option String := none
  message : Option String := none
  deriving DecidableEq, Repr

/-- Outcome of the `fetch('/initiate-upload')`. -/
inductive InitResp where
  | ok (d : InitData)
  | httpErr (code : Nat) (message : Option String)
  | netErr (msg : String)
  deriving DecidableEq, Repr

/-- The final `.catch` of the initiate promise chain: reports the failure
only when this attempt (identified by its client-generated id) is still the
active upload; a superseded attempt's error is dropped silently. -/
def initCatch (aId : String) (msg : String) (st : St) : St × List Ev :=
  if st.currentUploadId = some aId then
    (displayErrorInline ("Upload initiation failed: " ++ msg) false st,
      [Ev.initFailed msg])
  else (st, [])

/-- The `.then(initData)` continuation of the initiate chain: re-checks the
supersession guard (stopping silently if superseded), validates the payload
(throwing to the final catch otherwise), fixes the server-confirmed upload id
and task id, updates `currentUploadId` to the confirmed id, and starts the
chunk upload loop. -/
def initDataStage (t : Nat → ChunkNet) (aId : String) (totalSize : Nat)
    (d : InitData) (st : St) : St × List Ev :=
  if st.currentUploadId ≠ some aId then (st, [])
  else if d.status ≠ "success" ∨ ¬ truthy d.task_id ∨ ¬ truthy d.upload_id then
    initCatch aId
      (if truthy d.message then d.message.getD ""
       else "Failed to get required data (task_id/upload_id) from initiation.") st
  else
    let confirmedId := d.upload_id.getD ""
    let taskId := d.task_id.getD ""
    let st := if st.currentUploadId = some aId then
        { st with currentUploadId := some confirmedId }
      else st
    let totalChunks := totalChunksOf totalSize
    (st, uploadNextChunk t (some confirmedId) confirmedId taskId totalChunks 0
      (totalChunks + 1))

/-- The `.then(response)` continuation of the initiate chain: first re-checks
the supersession guard and throws (to the final catch) when superseded, then
turns a non-ok HTTP response into a thrown error, and otherwise passes the
parsed body on to `initDataStage`. -/
def initRespStage (t : Nat → ChunkNet) (aId : String) (totalSize : Nat)
    (r : InitResp) (st : St) : St × List Ev :=
  if st.currentUploadId ≠ some aId then
    initCatch aId "Upload superseded by a newer request." st
  else match r with
    | .ok d => initDataStage t aId totalSize d st
    | .httpErr code message =>
        initCatch aId
          (if truthy message then message.getD ""
           else "Initiate failed: " ++ toString code) st
    | .netErr msg => initCatch aId msg st

/-- The `.catch` of one chunk fetch chain: reports the failed chunk (by its
1-based position in the message) only when this attempt is still the active
upload; a superseded attempt's error is dropped silently. -/
def chunkCatch (confirmedId : String) (i : Nat) (msg : String) (st : St) :
    St × List Ev :=
  if st.currentUploadId = some confirmedId then
    (displayErrorInline
      ("Upload failed on chunk " ++ toString (i + 1) ++ ": " ++ msg) false st,
      [Ev.uploadFailed i msg])
  else (st, [])

/-- The `.then(chunkData)` continuation of one chunk fetch chain: re-checks
the supersession guard (stopping silently if superseded); on an acknowledged
success it advances to the next chunk, otherwise it throws to the catch. -/
def chunkDataStage (confirmedId : String) (i : Nat) (body : ChunkBody)
    (st : St) : St × List Ev :=
  if st.currentUploadId ≠ some confirmedId then (st, [])
  else if body.status = "success" then (st, [Ev.chunkAck i])
  else chunkCatch confirmedId i
    (if truthy body.message then body.message.getD ""
     else "Chunk upload reported failure.") st

/-- The `.then(response)` continuation of one chunk fetch chain: first
re-checks the supersession guard and throws (to the catch) when superseded,
then turns a non-ok HTTP response into a thrown error, and otherwise passes
the parsed body on to `chunkDataStage`. -/
def chunkRespStage (confirmedId : String) (i : Nat) (r : ChunkNet) (st : St) :
    St × List Ev :=
  if st.currentUploadId ≠ some confirmedId then
    chunkCatch confirmedId i "Upload superseded by a newer request." st
  else match r with
    | .ok body => chunkDataStage confirmedId i body st
    | .httpErr code message =>
        chunkCatch confirmedId i
          (if truthy message then message.getD ""
           else "Chunk upload failed: " ++ toString code) st
    | .netErr msg => chunkCatch confirmedId i msg st

/-- Synchronous prefix of `startChunkedUpload(csrfToken, textContent)`: takes
the attempt's fresh client-generated id, records it as the active upload,
computes the blob size (UTF-8 byte length of the text), updates the UI,
clears any installed poll interval, and issues the initiate request—whose
payload carries only `total_size` and `filename`, no upload id. -/
def startChunkedUpload (freshId : String) (text : String) (st : St) :
    St × List Ev :=
  let st := { st with currentUploadId := some freshId }
  let totalSize := text.utf8ByteSize
  let st := { st with
    processingVisible := true, processingMsg := "Initiating upload...",
    parseDisabled := true, errorVisible := false, resultsVisible := false }
  let st := clearTimer st
  (st, [Ev.initReq totalSize "pasted_blueprint.txt"])

/-- The form submit handler (corrected variant): clears any previous poll
interval and the active-upload tracker, resets the UI and disables the parse
button, then validates the input—an empty (or whitespace-only) text or a
missing CSRF token fails fast via `displayErrorInline` with no network
event—and otherwise starts the chunked upload. -/
def formSubmit (text : String) (csrf : Option String) (freshId : String)
    (st : St) : St × List Ev :=
  let st := clearTimer st
  let st := { st with currentUploadId := none }
  let st := { st with
    errorVisible := false, resultsVisible := false, parseDisabled := true }
  if text = "" ∨ text.trim = "" then
    (displayErrorInline "Please paste some Blueprint text." false st, [])
  else if ¬ truthy csrf then
    (displayErrorInline "Client error: CSRF token missing. Please refresh." false st, [])
  else startChunkedUpload freshId text st

/-- Time (ms) at which `setInterval(fn, 3000)` fires its tick `k` (the first
callback runs one full interval after installation, at 3000 ms). -/
def issueTime (k : Nat) : Nat := 3000 * (k + 1)

/-- Time (ms) at which the status fetch issued at tick `k` settles, given the
per-request latencies `lat`. -/
def settleTime (lat : Nat → Nat) (k : Nat) : Nat := issueTime k + lat k

/-- The recurring interval is still installed at time `t`: no status response
that settled at or before `t` was a terminal/teardown response (only the
fetch continuations ever clear the poller's interval). -/
def timerAliveAt (oracle : Nat → StatusResp) (lat : Nat → Nat) (t : Nat) :
    Prop :=
  ∀ j, settleTime lat j ≤ t → keepsPolling (oracle j) = true

/-- Tick `k` actually issues its status request iff the interval is still
installed when the tick fires. -/
def requestIssued (oracle : Nat → StatusResp) (lat : Nat → Nat) (k : Nat) :
    Prop :=
  timerAliveAt oracle lat (issueTime k)

/-- The status request of tick `k` is in flight at time `t`: it was issued,
at or before `t`, and has not settled yet. -/
def inFlightAt (oracle : Nat → StatusResp) (lat : Nat → Nat) (k t : Nat) :
    Prop :=
  requestIssued oracle lat k ∧ issueTime k ≤ t ∧ t < settleTime lat k

/-- Extracts the chunk index of a chunk request event. -/
def reqIndex : Ev → Option Nat
  | .chunkReq _ k => some k
  | _ => none

theorem truthy_getD {o : Option String} (h : truthy o = true) :
    some (o.getD "") = o := by
  cases o with
  | none => simp [truthy] at h
  | some s => rfl

theorem chunks_cover_aux (T : Nat) :
    ∀ k j, j + k = totalChunksOf T →
      (List.range' j k).flatMap
        (fun i => List.range' (chunkStart i) (chunkEnd T i - chunkStart i))
      = List.range' (chunkStart j) (T - chunkStart j)
  | 0, j, h => by
    have h0 : T - chunkStart j = 0 := by
      simp only [totalChunksOf, chunkSize] at h
      simp only [chunkStart, chunkSize]
      omega
    simp [h0]
  | k + 1, j, h => by
    have ih := chunks_cover_aux T k (j + 1) (by omega)
    by_cases hle : chunkStart j + chunkSize ≤ T
    · have h1 : chunkEnd T j - chunkStart j = chunkSize := by
        simp only [chunkEnd]
        omega
      have h2 : chunkStart (j + 1) = chunkStart j + chunkSize := by
        simp only [chunkStart, chunkSize]
        omega
      have h3 : T - (chunkStart j + chunkSize) + chunkSize = T - chunkStart j := by
        omega
      rw [List.range'_succ, List.flatMap_cons, ih, h1, h2,
        List.range'_append_1, h3]
    · have h1 : chunkEnd T j - chunkStart j = T - chunkStart j := by
        simp only [chunkEnd]
        omega
      have h2 : T - chunkStart (j + 1) = 0 := by
        simp only [chunkStart, chunkSize] at *
        omega
      rw [List.range'_succ, List.flatMap_cons, ih, h1, h2]
      simp

/-- C2: for every non-empty input, `totalChunks` is the ceiling of
`totalSize / chunkSize` (characterized by its two defining inequalities), the
chunk byte ranges `[i*chunkSize, min((i+1)*chunkSize, totalSize))` start at 0,
are contiguous (each chunk ends where the next begins), are non-empty, end at
`totalSize`, and their concatenation reconstructs the byte positions
`0..totalSize-1` exactly, with no overlap and no gap; in particular
`totalSize = 12000000` gives 3 chunks with ranges `[0, 5242880)`,
`[5242880, 10485760)`, `[10485760, 12000000)`. -/
theorem chunking_covers_exactly (T : Nat) (h : 0 < T) :
    (chunkSize * (totalChunksOf T - 1) < T ∧ T ≤ chunkSize * totalChunksOf T)
    ∧ chunkStart 0 = 0
    ∧ (∀ i, i + 1 < totalChunksOf T → chunkEnd T i = chunkStart (i + 1))
    ∧ chunkEnd T (totalChunksOf T - 1) = T
    ∧ (∀ i, i < totalChunksOf T → chunkStart i < chunkEnd T i)
    ∧ ((List.range (totalChunksOf T)).flatMap
        (fun i => List.range' (chunkStart i) (chunkEnd T i - chunkStart i))
        = List.range T)
    ∧ totalChunksOf 12000000 = 3
    ∧ chunkStart 0 = 0 ∧ chunkEnd 12000000 0 = 5242880
    ∧ chunkStart 1 = 5242880 ∧ chunkEnd 12000000 1 = 10485760
    ∧ chunkStart 2 = 10485760 ∧ chunkEnd 12000000 2 = 12000000 := by
  refine ⟨⟨?_, ?_⟩, rfl, ?_, ?_, ?_, ?_, by decide, rfl, by decide, by decide,
    by decide, by decide, by decide⟩
  · simp only [totalChunksOf, chunkSize]
    omega
  · simp only [totalChunksOf, chunkSize]
    omega
  · intro i hi
    simp only [totalChunksOf, chunkSize] at hi
    simp only [chunkEnd, chunkStart, chunkSize]
    omega
  · simp only [totalChunksOf, chunkSize] at *
    simp only [chunkEnd, chunkStart, chunkSize]
    omega
  · intro i hi
    simp only [totalChunksOf, chunkSize] at hi
    simp only [chunkEnd, chunkStart, chunkSize]
    omega
  · have := chunks_cover_aux T (totalChunksOf T) 0 (by omega)
    rw [List.range_eq_range', this]
    simp only [chunkStart, Nat.zero_mul, Nat.sub_zero]
    exact (List.range_eq_range' T).symm

/-- Witness for `chunking_covers_exactly` at the spec's example input. -/
theorem chunking_covers_exactly_witness :
    0 < 12000000
    ∧ (chunkSize * (totalChunksOf 12000000 - 1) < 12000000
       ∧ 12000000 ≤ chunkSize * totalChunksOf 12000000) :=
  ⟨by decide, (chunking_covers_exactly 12000000 (by decide)).1⟩


theorem displayErrorInline_spec (m : String) (w : Bool) (st : St) :
    (displayErrorInline m w st).errorText = m
    ∧ (displayErrorInline m w st).errorIsWarning = w
    ∧ (displayErrorInline m w st).errorVisible = true
    ∧ (displayErrorInline m w st).resultsVisible = false
    ∧ (displayErrorInline m w st).processingVisible = false
    ∧ (displayErrorInline m w st).pollTimer = none
    ∧ (displayErrorInline m w st).currentUploadId = none := by
  simp only [displayErrorInline]
  split <;> simp_all

theorem clearTimer_pollTimer (st : St) : (clearTimer st).pollTimer = none := by
  simp only [clearTimer]
  split <;> rfl

theorem clearTimer_currentUploadId (st : St) :
    (clearTimer st).currentUploadId = st.currentUploadId := by
  simp only [clearTimer]
  split <;> rfl

theorem startChunkedUpload_spec (freshId : String) (text : String) (st : St) :
    (startChunkedUpload freshId text st).1.currentUploadId = some freshId
    ∧ (startChunkedUpload freshId text st).2
        = [Ev.initReq text.utf8ByteSize "pasted_blueprint.txt"] := by
  constructor
  · simp only [startChunkedUpload]
    rw [clearTimer_currentUploadId]
  · rfl

/-- C8: an empty (or whitespace-only) text, or a falsy CSRF token, makes the
submit handler fail fast with the local validation error message and produce
no network event whatsoever — in particular no initiate request. -/
theorem validation_short_circuits (text : String) (csrf : Option String)
    (freshId : String) (st : St) :
    ((text = "" ∨ text.trim = "") →
      (formSubmit text csrf freshId st).2 = []
      ∧ (formSubmit text csrf freshId st).1.errorText
          = "Please paste some Blueprint text."
      ∧ (formSubmit text csrf freshId st).1.errorVisible = true)
    ∧ (¬(text = "" ∨ text.trim = "") → truthy csrf = false →
      (formSubmit text csrf freshId st).2 = []
      ∧ (formSubmit text csrf freshId st).1.errorText
          = "Client error: CSRF token missing. Please refresh."
      ∧ (formSubmit text csrf freshId st).1.errorVisible = true) := by
  constructor
  · intro h
    simp [formSubmit, h, displayErrorInline_spec]
  · intro h hc
    simp [formSubmit, h, hc, displayErrorInline_spec]

/-- Witness for `validation_short_circuits`: the empty text never reaches the
network. -/
theorem validation_short_circuits_witness :
    (("" : String) = "" ∨ ("" : String).trim = "")
    ∧ (formSubmit "" (some "tok") "fresh" {}).2 = [] :=
  ⟨Or.inl rfl,
    ((validation_short_circuits "" (some "tok") "fresh" {}).1 (Or.inl rfl)).1⟩

/-- C3: once an attempt is superseded (the active upload id differs from both
the attempt's client-generated id `aId` and its server-confirmed id `cId`),
every continuation of that attempt — the initiate response handler, the
initiate data handler, the initiate error handler (the target of the thrown
superseded errors), the chunk response handler, the chunk data handler and
the chunk error handler — leaves the state exactly unchanged and emits no
outcome event: supersession is silent abandonment, never a user-visible
failure.  Moreover a new submission immediately installs an active id
different from both ids of the old attempt (either `none` on validation
failure or the new attempt's fresh id), so the old attempt is superseded the
moment the new submission begins. -/
theorem superseded_attempt_is_silent (st : St) (aId cId : String)
    (t : Nat → ChunkNet) (totalSize : Nat) (r : InitResp) (d : InitData)
    (cn : ChunkNet) (body : ChunkBody) (i : Nat) (m : String)
    (h1 : st.currentUploadId ≠ some aId) (h2 : st.currentUploadId ≠ some cId) :
    initRespStage t aId totalSize r st = (st, [])
    ∧ initDataStage t aId totalSize d st = (st, [])
    ∧ initCatch aId m st = (st, [])
    ∧ chunkRespStage cId i cn st = (st, [])
    ∧ chunkDataStage cId i body st = (st, [])
    ∧ chunkCatch cId i m st = (st, [])
    ∧ (∀ text csrf fid, fid ≠ aId → fid ≠ cId →
        (formSubmit text csrf fid st).1.currentUploadId ≠ some aId
        ∧ (formSubmit text csrf fid st).1.currentUploadId ≠ some cId) := by
  refine ⟨?_, ?_, ?_, ?_, ?_, ?_, ?_⟩
  · simp [initRespStage, initCatch, h1]
  · simp [initDataStage, h1]
  · simp [initCatch, h1]
  · simp [chunkRespStage, chunkCatch, h2]
  · simp [chunkDataStage, h2]
  · simp [chunkCatch, h2]
  · intro text csrf fid hfa hfc
    by_cases ht : text = "" ∨ text.trim = ""
    · simp [formSubmit, ht, displayErrorInline_spec]
    · by_cases hc : truthy csrf
      · have hs := fun st2 => (startChunkedUpload_spec fid text st2).1
        simp [formSubmit, ht, hc, hs, hfa, hfc]
      · simp [formSubmit, ht, hc, displayErrorInline_spec]

/-- Witness for `superseded_attempt_is_silent` at a concrete superseded
state. -/
theorem superseded_attempt_is_silent_witness :
    St.currentUploadId { currentUploadId := some "new" } ≠ some "a"
    ∧ chunkRespStage "c" 0 (ChunkNet.netErr "boom")
        { currentUploadId := some "new" }
      = ({ currentUploadId := some "new" }, []) :=
  ⟨by decide,
    (superseded_attempt_is_silent { currentUploadId := some "new" } "a" "c"
      (fun _ => ChunkNet.netErr "boom") 0 (InitResp.netErr "boom")
      { status := "x" } (ChunkNet.netErr "boom") { status := "x" } 0 "m"
      (by decide) (by decide)).2.2.2.1⟩

theorem uploadNextChunk_ok_run (t : Nat → ChunkNet) (cid tid : String) (n : Nat)
    (hok : ∀ i, i < n → chunkFailMsg (t i) = none) :
    ∀ fuel i, i + fuel = n + 1 → i ≤ n →
      uploadNextChunk t (some cid) cid tid n i fuel
        = ((List.range' i (n - i)).flatMap
            fun j => [Ev.chunkReq cid j, Ev.chunkAck j])
          ++ [Ev.pollStarted tid]
  | 0, i, h, hle => by omega
  | fuel + 1, i, h, hle => by
    by_cases hin : n ≤ i
    · have hi : i = n := by omega
      subst hi
      simp [uploadNextChunk, Nat.sub_self]
    · have hfm := hok i (by omega)
      have ih := uploadNextChunk_ok_run t cid tid n hok fuel (i + 1)
        (by omega) (by omega)
      simp only [uploadNextChunk, ne_eq, not_true_eq_false, if_false,
        if_neg hin, hfm, ih]
      rw [show n - i = (n - (i + 1)) + 1 from by omega, List.range'_succ,
        List.flatMap_cons]
      simp

theorem blocks_filterMap (cid : String) : ∀ l : List Nat,
    ((l.flatMap fun j => [Ev.chunkReq cid j, Ev.chunkAck j]).filterMap reqIndex)
      = l
  | [] => rfl
  | a :: l => by
    simp [List.flatMap_cons, reqIndex, blocks_filterMap cid l]

theorem blocks_length (cid : String) : ∀ l : List Nat,
    (l.flatMap fun j => [Ev.chunkReq cid j, Ev.chunkAck j]).length = 2 * l.length
  | [] => rfl
  | a :: l => by
    simp [List.flatMap_cons, blocks_length cid l]
    omega

theorem blocks_getElem (cid : String) : ∀ cnt s d, d < cnt →
    (((List.range' s cnt).flatMap
        fun j => [Ev.chunkReq cid j, Ev.chunkAck j])[2 * d]?
      = some (Ev.chunkReq cid (s + d))
     ∧ ((List.range' s cnt).flatMap
        fun j => [Ev.chunkReq cid j, Ev.chunkAck j])[2 * d + 1]?
      = some (Ev.chunkAck (s + d)))
  | 0, s, d, h => by omega
  | cnt + 1, s, d, h => by
    cases d with
    | zero => simp [List.range'_succ]
    | succ d =>
      have ih := blocks_getElem cid cnt (s + 1) d (by omega)
      rw [List.range'_succ, List.flatMap_cons]
      rw [show 2 * (d + 1) = 2 * d + 1 + 1 from by omega]
      rw [show s + (d + 1) = s + 1 + d from by omega]
      simpa using ih

/-- C1: for a submission whose chunks are all acknowledged, the event trace
of the chunk upload loop is exactly `request 0, ack 0, request 1, ack 1, …,
request (n-1), ack (n-1), poll handoff`: the chunk indices sent are exactly
`0..chunkCount-1` in strictly increasing order with no gaps and no
duplicates, and the request for chunk `j+1` sits immediately after the
acknowledgment of chunk `j` in the trace — full serialization, never a
request before the previous acknowledgment. -/
theorem chunk_upload_serialized (t : Nat → ChunkNet) (cid tid : String)
    (n : Nat) (hok : ∀ i, i < n → chunkFailMsg (t i) = none) :
    uploadNextChunk t (some cid) cid tid n 0 (n + 1)
      = ((List.range n).flatMap fun j => [Ev.chunkReq cid j, Ev.chunkAck j])
        ++ [Ev.pollStarted tid]
    ∧ (uploadNextChunk t (some cid) cid tid n 0 (n + 1)).filterMap reqIndex
      = List.range n
    ∧ (∀ j, j + 1 < n →
        (uploadNextChunk t (some cid) cid tid n 0 (n + 1))[2 * j + 1]?
          = some (Ev.chunkAck j)
        ∧ (uploadNextChunk t (some cid) cid tid n 0 (n + 1))[2 * j + 2]?
          = some (Ev.chunkReq cid (j + 1))) := by
  have htr := uploadNextChunk_ok_run t cid tid n hok (n + 1) 0 (by omega) (by omega)
  rw [Nat.sub_zero, ← List.range_eq_range'] at htr
  refine ⟨htr, ?_, ?_⟩
  · rw [htr, List.filterMap_append, blocks_filterMap]
    simp [reqIndex]
  · intro j hj
    have hlen := blocks_length cid (List.range n)
    rw [List.length_range] at hlen
    rw [htr]
    constructor
    · rw [List.getElem?_append_left (by omega)]
      have := (blocks_getElem cid n 0 j (by omega)).2
      rw [List.range_eq_range']
      simpa using this
    · rw [List.getElem?_append_left (by omega)]
      have := (blocks_getElem cid n 0 (j + 1) (by omega)).1
      rw [show 2 * j + 2 = 2 * (j + 1) from by omega, List.range_eq_range']
      simpa using this

/-- Witness for `chunk_upload_serialized` with three chunks, all
acknowledged. -/
theorem chunk_upload_serialized_witness :
    uploadNextChunk (fun _ => ChunkNet.ok { status := "success" }) (some "sid")
        "sid" "tid" 3 0 4
      = [Ev.chunkReq "sid" 0, Ev.chunkAck 0, Ev.chunkReq "sid" 1,
         Ev.chunkAck 1, Ev.chunkReq "sid" 2, Ev.chunkAck 2,
         Ev.pollStarted "tid"] := by
  have h := (chunk_upload_serialized
    (fun _ => ChunkNet.ok { status := "success" }) "sid" "tid" 3
    (fun i _ => rfl)).1
  rw [h]
  rfl

theorem uploadNextChunk_fail_run (t : Nat → ChunkNet) (cid tid : String)
    (n j : Nat) (hj : j < n)
    (hok : ∀ i, i < j → chunkFailMsg (t i) = none)
    (hfail : chunkFailMsg (t j) ≠ none) :
    ∀ fuel i, i + fuel = n + 1 → i ≤ j →
      uploadNextChunk t (some cid) cid tid n i fuel
        = ((List.range' i (j - i)).flatMap
            fun a => [Ev.chunkReq cid a, Ev.chunkAck a])
          ++ [Ev.chunkReq cid j,
              Ev.uploadFailed j ((chunkFailMsg (t j)).getD "")]
  | 0, i, h, hle => by omega
  | fuel + 1, i, h, hle => by
    by_cases hij : i = j
    · subst hij
      obtain ⟨m, hm⟩ : ∃ m, chunkFailMsg (t i) = some m := by
        cases hx : chunkFailMsg (t i)
        · exact absurd hx hfail
        · exact ⟨_, rfl⟩
      simp [uploadNextChunk, Nat.not_le.mpr hj, hm, Nat.sub_self]
    · have hfm := hok i (by omega)
      have ih := uploadNextChunk_fail_run t cid tid n j hj hok hfail fuel
        (i + 1) (by omega) (by omega)
      simp only [uploadNextChunk, ne_eq, not_true_eq_false, if_false,
        if_neg (show ¬ n ≤ i by omega), hfm, ih]
      rw [show j - i = (j - (i + 1)) + 1 from by omega, List.range'_succ,
        List.flatMap_cons]
      simp

/-- C7: when chunk `j` is the first to fail (network error, non-ok HTTP
response, or a body with a non-success status), the upload attempt runs
exactly chunks `0..j-1` acknowledged, requests chunk `j` once, and aborts by
displaying the upload failure naming chunk `j` and the failure cause; no
chunk is ever requested again (no index above `j` appears, so neither the
failed chunk nor any later chunk is retried) and the poll handoff never
happens — resumption requires a fresh submit. -/
theorem chunk_failure_aborts_attempt (t : Nat → ChunkNet) (cid tid : String)
    (n j : Nat) (hj : j < n)
    (hok : ∀ i, i < j → chunkFailMsg (t i) = none)
    (hfail : chunkFailMsg (t j) ≠ none) :
    uploadNextChunk t (some cid) cid tid n 0 (n + 1)
      = ((List.range j).flatMap fun a => [Ev.chunkReq cid a, Ev.chunkAck a])
        ++ [Ev.chunkReq cid j,
            Ev.uploadFailed j ((chunkFailMsg (t j)).getD "")]
    ∧ (∀ u k, Ev.chunkReq u k ∈ uploadNextChunk t (some cid) cid tid n 0 (n + 1)
        → k ≤ j)
    ∧ Ev.pollStarted tid ∉ uploadNextChunk t (some cid) cid tid n 0 (n + 1) := by
  have htr := uploadNextChunk_fail_run t cid tid n j hj hok hfail (n + 1) 0
    (by omega) (by omega)
  rw [Nat.sub_zero, ← List.range_eq_range'] at htr
  refine ⟨htr, ?_, ?_⟩
  · intro u k hk
    rw [htr] at hk
    rcases List.mem_append.mp hk with hmem | hmem
    · rcases List.mem_flatMap.mp hmem with ⟨a, ha, hmem2⟩
      have ha2 : a < j := List.mem_range.mp ha
      simp only [List.mem_cons, List.not_mem_nil, or_false] at hmem2
      rcases hmem2 with h | h
      · injection h with h1 h2
        omega
      · simp at h
    · simp only [List.mem_cons, List.not_mem_nil, or_false] at hmem
      rcases hmem with h | h
      · injection h with h1 h2
        omega
      · simp at h
  · rw [htr]
    simp [List.mem_flatMap]

/-- Witness for `chunk_failure_aborts_attempt`: chunk 1 of 3 fails with an
HTTP 500 and the run aborts after requesting chunks 0 and 1 only. -/
theorem chunk_failure_aborts_attempt_witness :
    uploadNextChunk
        (fun i => if i = 1 then ChunkNet.httpErr 500 none
          else ChunkNet.ok { status := "success" })
        (some "sid") "sid" "tid" 3 0 4
      = [Ev.chunkReq "sid" 0, Ev.chunkAck 0, Ev.chunkReq "sid" 1,
         Ev.uploadFailed 1 "Chunk upload failed: 500"] := by
  have h := (chunk_failure_aborts_attempt
    (fun i => if i = 1 then ChunkNet.httpErr 500 none
      else ChunkNet.ok { status := "success" })
    "sid" "tid" 3 1 (by omega)
    (by
      intro i hi
      interval_cases i
      · rfl)
    (by decide)).1
  rw [h]
  rfl

theorem uploadNextChunk_req_id (t : Nat → ChunkNet) (cur : Option String)
    (cid tid : String) (n : Nat) :
    ∀ fuel i u k,
      Ev.chunkReq u k ∈ uploadNextChunk t cur cid tid n i fuel → u = cid
  | 0, i, u, k => by simp [uploadNextChunk]
  | fuel + 1, i, u, k => by
    simp only [uploadNextChunk]
    split
    · simp
    · split
      · simp
      · cases hx : chunkFailMsg (t i) <;> simp only [hx]
        · simp only [List.mem_cons]
          rintro (h | h | h)
          · injection h with h1 h2
          · simp at h
          · exact uploadNextChunk_req_id t cur cid tid n fuel (i + 1) u k h
        · simp only [List.mem_cons, List.not_mem_nil, or_false]
          rintro (h | h)
          · injection h with h1 h2
          · simp at h

/-- C9: when an active attempt's initiate call succeeds, the server-assigned
`upload_id` becomes the attempt's (single, fixed) active identifier, and
every chunk request of the attempt carries exactly that server-assigned id;
the attempt's client-generated id is carried by no chunk request (and the
initiate payload itself carries no upload id at all in this variant, only
`total_size` and `filename`). -/
theorem chunk_requests_carry_server_id_only (t : Nat → ChunkNet)
    (aId : String) (totalSize : Nat) (d : InitData) (st : St)
    (hact : st.currentUploadId = some aId)
    (hst : d.status = "success") (htid : truthy d.task_id)
    (huid : truthy d.upload_id) (hne : d.upload_id ≠ some aId) :
    (initDataStage t aId totalSize d st).1.currentUploadId = d.upload_id
    ∧ (∀ u k, Ev.chunkReq u k ∈ (initDataStage t aId totalSize d st).2 →
        some u = d.upload_id)
    ∧ (∀ k, Ev.chunkReq aId k ∉ (initDataStage t aId totalSize d st).2) := by
  have hguard : ¬ st.currentUploadId ≠ some aId := by simp [hact]
  have hcond : ¬(d.status ≠ "success" ∨ ¬ truthy d.task_id = true
      ∨ ¬ truthy d.upload_id = true) := by
    simp [hst, htid, huid]
  simp only [initDataStage, if_neg hguard, if_neg hcond, if_pos hact]
  refine ⟨rfl.trans (truthy_getD huid), ?_, ?_⟩
  · intro u k hmem
    have h := uploadNextChunk_req_id t (some (d.upload_id.getD ""))
      (d.upload_id.getD "") (d.task_id.getD "") (totalChunksOf totalSize)
      (totalChunksOf totalSize + 1) 0 u k hmem
    rw [h]
    exact truthy_getD huid
  · intro k hmem
    have h := uploadNextChunk_req_id t (some (d.upload_id.getD ""))
      (d.upload_id.getD "") (d.task_id.getD "") (totalChunksOf totalSize)
      (totalChunksOf totalSize + 1) 0 aId k hmem
    exact hne (by rw [← truthy_getD huid, h])

/-- Witness for `chunk_requests_carry_server_id_only` with a concrete
successful initiation. -/
theorem chunk_requests_carry_server_id_only_witness :
    (initDataStage (fun _ => ChunkNet.ok { status := "success" }) "client-1" 1
        { status := "success", task_id := some "t1", upload_id := some "srv-1" }
        { currentUploadId := some "client-1" }).1.currentUploadId
      = some "srv-1" :=
  (chunk_requests_carry_server_id_only
    (fun _ => ChunkNet.ok { status := "success" }) "client-1" 1
    { status := "success", task_id := some "t1", upload_id := some "srv-1" }
    { currentUploadId := some "client-1" }
    (by decide) (by decide) (by decide) (by decide) (by decide)).1

/-- A state in mid-poll: an interval is installed, an attempt is active, the
processing indicator is shown and the parse button is disabled. -/
def stActive : St :=
  { pollTimer := some 1, currentUploadId := some "u1",
    processingVisible := true, parseDisabled := true }

/-- C4 (failing input): a `PARTIAL_FAILURE` status whose payload carries both
an `output` and an `error` is routed to the results path (not the failure
path): the payload is delivered as a results resolution, the error is
rendered as a warning (not a danger alert) and the partial output is written
into the output pane — but the warning detour through `displayErrorInline`
sets the results area back to hidden after `displayResultsInline` had just
shown it, so the written partial output ends up invisible: the code does not
surface both together as the specification requires. -/
theorem partialFailure_warning_hides_results :
    (pollTick (StatusResp.ok "PARTIAL_FAILURE"
        (some { output := some "o", error := some "e" }) none) stActive).2
      = [Out.resolvedResults { output := some "o", error := some "e" }]
    ∧ (pollTick (StatusResp.ok "PARTIAL_FAILURE"
        (some { output := some "o", error := some "e" }) none)
        stActive).1.humanContent = some "o"
    ∧ (pollTick (StatusResp.ok "PARTIAL_FAILURE"
        (some { output := some "o", error := some "e" }) none)
        stActive).1.errorText = "Processing completed with issues: e"
    ∧ (pollTick (StatusResp.ok "PARTIAL_FAILURE"
        (some { output := some "o", error := some "e" }) none)
        stActive).1.errorIsWarning = true
    ∧ (pollTick (StatusResp.ok "PARTIAL_FAILURE"
        (some { output := some "o", error := some "e" }) none)
        stActive).1.errorVisible = true
    ∧ (pollTick (StatusResp.ok "PARTIAL_FAILURE"
        (some { output := some "o", error := some "e" }) none)
        stActive).1.resultsVisible = false := by
  decide

theorem displayResultsInline_resets (r : TaskResult) (st : St) :
    (displayResultsInline r st).currentUploadId = none
    ∧ (st.pollTimer = none → (displayResultsInline r st).pollTimer = none) := by
  constructor
  · rfl
  · intro h
    simp only [displayResultsInline]
    split <;> split <;> split <;> split <;>
      simp_all [displayErrorInline_spec]

/-- C10: every terminal outcome delivery leaves a clean state: an error
display always ends with no poll interval installed and no active attempt;
a results display always ends with no active attempt; and any poll tick that
delivers an outcome (a results or error resolution) ends with no poll
interval installed and no active attempt — so after any terminal outcome the
next submit starts from a clean slate. -/
theorem terminal_outcome_resets_state (st : St) (msg : String) (w : Bool)
    (r : StatusResp) (res : TaskResult) :
    ((displayErrorInline msg w st).pollTimer = none
      ∧ (displayErrorInline msg w st).currentUploadId = none)
    ∧ (displayResultsInline res st).currentUploadId = none
    ∧ ((pollTick r st).2 ≠ [] →
        (pollTick r st).1.pollTimer = none
        ∧ (pollTick r st).1.currentUploadId = none) := by
  refine ⟨⟨(displayErrorInline_spec msg w st).2.2.2.2.2.1,
    (displayErrorInline_spec msg w st).2.2.2.2.2.2⟩,
    (displayResultsInline_resets res st).1, ?_⟩
  intro hne
  rcases r with ⟨status, result, error⟩ | ⟨code, body⟩ | m
  · simp only [pollTick] at hne ⊢
    by_cases h1 : status = "SUCCESS" ∨ status = "FAILURE"
        ∨ status = "PARTIAL_FAILURE" ∨ status = "UNEXPECTED_RESULT"
    · simp only [if_pos h1] at hne ⊢
      by_cases h2 : status = "SUCCESS" ∨ status = "PARTIAL_FAILURE"
      · simp only [if_pos h2]
        refine ⟨(displayResultsInline_resets _ _).2 ?_,
          (displayResultsInline_resets _ _).1⟩
        simp [clearTimer_pollTimer]
      · simp only [if_neg h2]
        exact ⟨(displayErrorInline_spec _ _ _).2.2.2.2.2.1,
          (displayErrorInline_spec _ _ _).2.2.2.2.2.2⟩
    · simp only [if_neg h1] at hne ⊢
      by_cases h3 : status = "PROCESSING" ∨ status = "PENDING"
          ∨ status = "STARTED"
      · simp only [if_pos h3] at hne
        exact absurd rfl hne
      · simp only [if_neg h3]
        exact ⟨(displayErrorInline_spec _ _ _).2.2.2.2.2.1,
          (displayErrorInline_spec _ _ _).2.2.2.2.2.2⟩
  · simp only [pollTick, pollCatch]
    exact ⟨(displayErrorInline_spec _ _ _).2.2.2.2.2.1,
      (displayErrorInline_spec _ _ _).2.2.2.2.2.2⟩
  · simp only [pollTick, pollCatch]
    exact ⟨(displayErrorInline_spec _ _ _).2.2.2.2.2.1,
      (displayErrorInline_spec _ _ _).2.2.2.2.2.2⟩

/-- Witness for `terminal_outcome_resets_state`: a transport error during a
poll leaves no interval installed and no active attempt. -/
theorem terminal_outcome_resets_state_witness :
    (pollTick (StatusResp.netErr "down") stActive).1.pollTimer = none
    ∧ (pollTick (StatusResp.netErr "down") stActive).1.currentUploadId
      = none :=
  (terminal_outcome_resets_state stActive "m" false (StatusResp.netErr "down")
    {}).2.2 (by decide)

/-- The trace the C6 test drives the poller through: the `SUCCESS` payload
observed on the third poll. -/
def successResult : TaskResult := { output := some "out", ai_output := some "ai" }

/-- Status oracle returning `PROCESSING` twice and then `SUCCESS` with its
payload. -/
def pollOracle : Nat → StatusResp := fun k =>
  if k < 2 then StatusResp.ok "PROCESSING" none none
  else StatusResp.ok "SUCCESS" (some successResult) none

theorem pollRun_stopped (o : Nat → StatusResp) (fuel tick : Nat) (st : St)
    (h : st.pollTimer = none) : pollRun o fuel tick st = (st, []) := by
  cases fuel <;> simp [pollRun, h]

theorem pollTick_processing (st : St) (tick : Nat) (h : tick < 2) :
    pollTick (pollOracle tick) st = ({ st with processingVisible := true }, []) := by
  simp [pollOracle, h, pollTick]

theorem pollRun_step (o : Nat → StatusResp) (fuel tick : Nat) (st : St)
    (h : st.pollTimer.isSome) :
    pollRun o (fuel + 1) tick st
      = ((pollRun o fuel (tick + 1) (pollTick (o tick) st).1).1,
         Out.statusReq tick :: ((pollTick (o tick) st).2
           ++ (pollRun o fuel (tick + 1) (pollTick (o tick) st).1).2)) := by
  simp [pollRun, h]

theorem pollRun_full (f : Nat) :
    pollRun pollOracle (f + 3) 0 stActive
      = ((pollTick (pollOracle 2) stActive).1,
         [Out.statusReq 0, Out.statusReq 1, Out.statusReq 2,
          Out.resolvedResults successResult]) := by
  have htimer : (pollTick (pollOracle 2) stActive).1.pollTimer = none := by
    decide
  have hout : (pollTick (pollOracle 2) stActive).2
      = [Out.resolvedResults successResult] := by
    decide
  have hid : ({ stActive with processingVisible := true } : St) = stActive := by
    decide
  show pollRun pollOracle (f + 2 + 1) 0 stActive = _
  rw [pollRun_step pollOracle (f + 2) 0 stActive (by decide)]
  rw [pollTick_processing stActive 0 (by omega), hid]
  norm_num
  rw [pollRun_step pollOracle (f + 1) 1 stActive (by decide)]
  rw [pollTick_processing stActive 1 (by omega), hid]
  norm_num
  rw [pollRun_step pollOracle f 2 stActive (by decide)]
  rw [pollRun_stopped pollOracle f 3 _ htimer, hout]
  simp

theorem clearTimer_clears (st : St) (h : st.pollTimer.isSome) :
    (clearTimer st).clears = st.clears + 1 := by
  simp [clearTimer, h]

theorem displayErrorInline_clears (m : String) (w : Bool) (st : St)
    (h : st.pollTimer = none) :
    (displayErrorInline m w st).clears = st.clears := by
  simp [displayErrorInline, h]

theorem displayResultsInline_clears (r : TaskResult) (st : St)
    (h : st.pollTimer = none) :
    (displayResultsInline r st).clears = st.clears := by
  simp only [displayResultsInline]
  split <;> split <;> split <;> split <;> simp_all [displayErrorInline]

theorem pollTick_teardown (st : St) (r : StatusResp)
    (h : st.pollTimer.isSome) (hterm : keepsPolling r = false) :
    (pollTick r st).1.pollTimer = none
    ∧ (pollTick r st).1.clears = st.clears + 1 := by
  rcases r with ⟨status, result, error⟩ | ⟨code, body⟩ | m
  · by_cases h1 : status = "SUCCESS" ∨ status = "FAILURE"
        ∨ status = "PARTIAL_FAILURE" ∨ status = "UNEXPECTED_RESULT"
    · simp only [pollTick, if_pos h1]
      by_cases h2 : status = "SUCCESS" ∨ status = "PARTIAL_FAILURE"
      · simp only [if_pos h2]
        refine ⟨(displayResultsInline_resets _ _).2 (by simp [clearTimer_pollTimer]), ?_⟩
        rw [displayResultsInline_clears _ _ (by simp [clearTimer_pollTimer])]
        simp [clearTimer_clears st h]
      · simp only [if_neg h2]
        refine ⟨(displayErrorInline_spec _ _ _).2.2.2.2.2.1, ?_⟩
        rw [displayErrorInline_clears _ _ _ (by simp [clearTimer_pollTimer])]
        simp [clearTimer_clears st h]
    · have h3 : ¬(status = "PROCESSING" ∨ status = "PENDING"
          ∨ status = "STARTED") := by
        simp [keepsPolling] at hterm
        tauto
      simp only [pollTick, if_neg h1, if_neg h3]
      refine ⟨(displayErrorInline_spec _ _ _).2.2.2.2.2.1, ?_⟩
      rw [displayErrorInline_clears _ _ _ (by simp [clearTimer_pollTimer])]
      simp [clearTimer_clears st h]
  · simp only [pollTick, pollCatch]
    refine ⟨(displayErrorInline_spec _ _ _).2.2.2.2.2.1, ?_⟩
    rw [displayErrorInline_clears _ _ _ (by simp [clearTimer_pollTimer])]
    simp [clearTimer_clears st h]
  · simp only [pollTick, pollCatch]
    refine ⟨(displayErrorInline_spec _ _ _).2.2.2.2.2.1, ?_⟩
    rw [displayErrorInline_clears _ _ _ (by simp [clearTimer_pollTimer])]
    simp [clearTimer_clears st h]

/-- C6: driven by a transport fake that reports `PROCESSING` twice and then
`SUCCESS`, the poller issues exactly three status requests and resolves
exactly once, with the `SUCCESS` payload, issuing no further request no
matter how much longer the timer could run (`f` more ticks available); and in
every terminal case — terminal status, unknown status, or transport error —
the recurring interval is torn down effectively exactly once (the teardown
counter rises by exactly one: the stop is idempotent). -/
theorem poller_resolves_once_and_stops (f : Nat) :
    (pollRun pollOracle (f + 3) 0 stActive).2
      = [Out.statusReq 0, Out.statusReq 1, Out.statusReq 2,
         Out.resolvedResults successResult]
    ∧ (pollRun pollOracle (f + 3) 0 stActive).1.pollTimer = none
    ∧ (pollRun pollOracle (f + 3) 0 stActive).1.clears = 1
    ∧ (∀ st : St, ∀ r : StatusResp, st.pollTimer.isSome →
        keepsPolling r = false →
        (pollTick r st).1.pollTimer = none
        ∧ (pollTick r st).1.clears = st.clears + 1) := by
  refine ⟨?_, ?_, ?_, fun st r h hterm => pollTick_teardown st r h hterm⟩
  · rw [pollRun_full f]
  · rw [pollRun_full f]
    decide
  · rw [pollRun_full f]
    decide

/-- Witness for `poller_resolves_once_and_stops` at zero spare fuel and a
concrete transport error teardown. -/
theorem poller_resolves_once_and_stops_witness :
    (pollRun pollOracle 3 0 stActive).2
      = [Out.statusReq 0, Out.statusReq 1, Out.statusReq 2,
         Out.resolvedResults successResult]
    ∧ (pollTick (StatusResp.netErr "down") stActive).1.clears
      = stActive.clears + 1 :=
  ⟨(poller_resolves_once_and_stops 0).1,
   ((poller_resolves_once_and_stops 0).2.2.2 stActive (StatusResp.netErr "down")
      (by decide) (by decide)).2⟩

theorem pollTick_keeps (st : St) (r : StatusResp)
    (h : keepsPolling r = true) :
    (pollTick r st).1.pollTimer = st.pollTimer ∧ (pollTick r st).2 = [] := by
  rcases r with ⟨status, result, error⟩ | ⟨code, body⟩ | m
  · simp only [keepsPolling, Bool.and_eq_true, Bool.not_eq_true',
      Bool.or_eq_false_iff, Bool.or_eq_true, beq_iff_eq,
      beq_eq_false_iff_ne] at h
    have h1 : ¬(status = "SUCCESS" ∨ status = "FAILURE"
        ∨ status = "PARTIAL_FAILURE" ∨ status = "UNEXPECTED_RESULT") := by
      tauto
    have h3 : status = "PROCESSING" ∨ status = "PENDING"
        ∨ status = "STARTED" := by tauto
    simp [pollTick, h1, h3]
  · simp [keepsPolling] at h
  · simp [keepsPolling] at h

/-- C5 (counterexample): with the status transport answering `PROCESSING`
(so the interval is never torn down) and every poll taking 4000 ms to
settle, the requests of tick 0 (issued at 3000 ms, settling at 7000 ms) and
tick 1 (issued at 6000 ms) are both in flight at time 6000 ms: the recurring
`setInterval` issues a new status fetch every 3 seconds whether or not the
previous fetch's promise has settled, so polls are not serialized. -/
theorem poll_overlap_counterexample :
    (0 : Nat) ≠ 1
    ∧ inFlightAt (fun _ => StatusResp.ok "PROCESSING" none none)
        (fun _ => 4000) 0 6000
    ∧ inFlightAt (fun _ => StatusResp.ok "PROCESSING" none none)
        (fun _ => 4000) 1 6000 := by
  refine ⟨by decide, ⟨fun j _ => rfl, by decide, by decide⟩,
    ⟨fun j _ => rfl, by decide, by decide⟩⟩

/-- C5 (amended): the poller's requests are spaced by the fixed 3-second
interval, and polls are serialized only under the additional assumption that
every poll settles within the interval: in that case no two poll requests of
the same poller are ever in flight simultaneously.  (Without that
assumption serialization fails, see `poll_overlap_counterexample`.) -/
theorem poll_fixed_interval_serial_when_prompt
    (oracle : Nat → StatusResp) (lat : Nat → Nat) (j k t : Nat)
    (hlat : ∀ i, lat i ≤ 3000) (hjk : j ≠ k) :
    issueTime (k + 1) - issueTime k = 3000
    ∧ ¬(inFlightAt oracle lat j t ∧ inFlightAt oracle lat k t) := by
  constructor
  · simp only [issueTime]
    omega
  · rintro ⟨⟨-, hj1, hj2⟩, ⟨-, hk1, hk2⟩⟩
    have hlj := hlat j
    have hlk := hlat k
    simp only [issueTime, settleTime] at hj1 hj2 hk1 hk2 hlj hlk
    omega

/-- Witness for `poll_fixed_interval_serial_when_prompt` with prompt
(1-second) responses. -/
theorem poll_fixed_interval_serial_when_prompt_witness :
    issueTime 1 - issueTime 0 = 3000
    ∧ ¬(inFlightAt (fun _ => StatusResp.ok "PROCESSING" none none)
          (fun _ => 1000) 0 6000
        ∧ inFlightAt (fun _ => StatusResp.ok "PROCESSING" none none)
          (fun _ => 1000) 1 6000) :=
  poll_fixed_interval_serial_when_prompt
    (fun _ => StatusResp.ok "PROCESSING" none none) (fun _ => 1000) 0 1 6000
    (fun _ => by show 1000 ≤ 3000; omega) (by decide)
